import Mathlib

/-
Shallow embedding of the two operational scripts of this repository:
  src/ops/hyperbolic/hf_sync_loop.py  (sync utility)
  src/ops/hyperbolic/hf_restore.py    (restore utility)

External collaborators (the huggingface_hub SDK calls `create_repo`,
`upload_folder`, `snapshot_download`, the stdlib `glob.glob` and
`os.path.isdir`) are modelled as an environment oracle `Env`; each script
function is embedded as a pure function producing the list of observable
effects it performs (SDK calls, prints, sleeps) together with its outcome.
Python exceptions of the `Exception` hierarchy raised by the SDK calls are
modelled by `PyErr` values supplied by the environment.
-/

/-- Python exceptions (subclasses of `Exception`) that the scripts handle:
`HfHubHTTPError` from huggingface_hub, and any other `Exception`. -/
inductive PyErr where
  | hfHubHTTPError (msg : String)
  | otherExc (msg : String)
deriving DecidableEq, Repr

/-- Observable effects performed by the scripts: SDK calls with their
arguments, stdout/stderr prints, directory creation, and sleeps. -/
inductive Effect where
  | hfApiInit (token : Option String)
  | createRepo (repo_id repo_type : String) (privateFlag exist_ok : Bool)
  | uploadFolder (repo_id repo_type folder_path : String)
      (allow_patterns ignore_patterns : List String) (commit_message : String)
  | snapshotDownload (repo_id repo_type : String) (token : Option String)
      (local_dir : String) (allow_patterns : List String)
  | makedirs (dir : String) (exist_ok : Bool)
  | printOut (msg : String)
  | printErr (msg : String)
  | sleep (seconds : Int)
deriving DecidableEq, Repr

/-- The environment oracle: results of the external stdlib and SDK calls.
`glob p r` tells whether `glob.glob(p, recursive=r)` returns a non-empty
list; `isdir` is `os.path.isdir`; the three `Option PyErr` fields give the
exception (if any) raised by the corresponding SDK call; `now` is the UTC
timestamp string formatted by the sync script. -/
structure Env where
  glob : String → Bool → Bool
  isdir : String → Bool
  createRepoErr : Option PyErr
  uploadErr : Option PyErr
  snapshotErr : Option PyErr
  now : String

/-- Python `os.path.join(a, b)` for POSIX paths (the only form the scripts
use): if `b` is absolute it replaces `a`; otherwise a separator is inserted
unless `a` is empty or already ends with one. -/
def osPathJoin (a b : String) : String :=
  if b.startsWith "/" then b
  else if a = "" || a.endsWith "/" then a ++ b
  else a ++ "/" ++ b

/-- Python `str.lower()` restricted to ASCII, which covers every
recognized truthy token of `parse_bool`. -/
def pyLower (s : String) : String :=
  String.mk (s.data.map Char.toLower)

namespace HfSyncLoop

/-- `DEFAULT_ALLOW_PATTERNS` of src/ops/hyperbolic/hf_sync_loop.py. -/
def DEFAULT_ALLOW_PATTERNS : List String :=
  ["base_checkpoints/**",
   "chatsft_checkpoints/**",
   "chatrl_checkpoints/**",
   "tokenizer/**",
   "report/**",
   "report.md",
   "identity_conversations.jsonl"]

/-- `DEFAULT_IGNORE_PATTERNS` of src/ops/hyperbolic/hf_sync_loop.py. -/
def DEFAULT_IGNORE_PATTERNS : List String :=
  ["**/*.tmp", "**/*.lock"]

end HfSyncLoop

namespace HfRestore

/-- `DEFAULT_ALLOW_PATTERNS` of src/ops/hyperbolic/hf_restore.py. -/
def DEFAULT_ALLOW_PATTERNS : List String :=
  ["base_checkpoints/**",
   "chatsft_checkpoints/**",
   "chatrl_checkpoints/**",
   "tokenizer/**",
   "report/**",
   "report.md",
   "identity_conversations.jsonl"]

end HfRestore

/-- `parse_bool` of hf_sync_loop.py:
`return value.lower() in {"1", "true", "yes", "y"}`. -/
def parse_bool (value : String) : Bool :=
  ["1", "true", "yes", "y"].contains (pyLower value)

/-- `any_matches` of hf_sync_loop.py: some allow pattern, joined to the
local directory, has a non-empty `glob.glob(..., recursive=True)` result. -/
def any_matches (env : Env) (local_dir : String)
    (allow_patterns : List String) : Bool :=
  allow_patterns.any fun pattern => env.glob (osPathJoin local_dir pattern) true

/-- `sync_once` of hf_sync_loop.py: calls `create_repo` (which may raise),
then either skips (no allow pattern matches) or calls `upload_folder`
(which may raise). Returns the effect trace and the exception escaping the
function, if any. -/
def sync_once (env : Env) (repo_id repo_type : String) (privateFlag : Bool)
    (local_dir : String) (allow_patterns ignore_patterns : List String) :
    List Effect × Option PyErr :=
  let create := Effect.createRepo repo_id repo_type privateFlag true
  match env.createRepoErr with
  | some e => ([create], some e)
  | none =>
    if !any_matches env local_dir allow_patterns then
      ([create, Effect.printOut "[hf-sync] no matching files yet, skipping upload"],
       none)
    else
      let commit_message := "checkpoint sync " ++ env.now
      let upload := Effect.uploadFolder repo_id repo_type local_dir
        allow_patterns ignore_patterns commit_message
      let pre := [create,
        Effect.printOut ("[hf-sync] uploading artifacts from " ++ local_dir
          ++ " -> " ++ repo_type ++ ":" ++ repo_id)]
      match env.uploadErr with
      | some e => (pre ++ [upload], some e)
      | none => (pre ++ [upload, Effect.printOut "[hf-sync] upload complete"], none)

/-- Parsed CLI arguments of hf_sync_loop.py (all invocations that pass
argument parsing). `privateArg` is the raw string of `--private`. -/
structure SyncArgs where
  repo_id : String
  repo_type : String
  privateArg : String
  local_dir : String
  interval_seconds : Int
  once : Bool
  allow_pattern : List String
  ignore_pattern : List String
  token : Option String

/-- The allow-pattern selection of `main` in hf_sync_loop.py:
`args.allow_pattern if args.allow_pattern else list(DEFAULT_ALLOW_PATTERNS)`
(an empty list is falsy in Python). -/
def syncAllowPatterns (args : SyncArgs) : List String :=
  if args.allow_pattern.isEmpty then HfSyncLoop.DEFAULT_ALLOW_PATTERNS
  else args.allow_pattern

/-- The ignore-pattern selection of `main` in hf_sync_loop.py. -/
def syncIgnorePatterns (args : SyncArgs) : List String :=
  if args.ignore_pattern.isEmpty then HfSyncLoop.DEFAULT_IGNORE_PATTERNS
  else args.ignore_pattern

/-- One iteration of the `while True` loop of `main` in hf_sync_loop.py:
run `sync_once` under `try`, catch `HfHubHTTPError` and `Exception` by
printing to stderr, then `time.sleep(max(30, args.interval_seconds))`.
The iteration never propagates a `PyErr`. -/
def syncLoopIter (env : Env) (args : SyncArgs) : List Effect :=
  let attempt := sync_once env args.repo_id args.repo_type
    (parse_bool args.privateArg) args.local_dir
    (syncAllowPatterns args) (syncIgnorePatterns args)
  let logged := match attempt.2 with
    | none => attempt.1
    | some (PyErr.hfHubHTTPError m) =>
        attempt.1 ++ [Effect.printErr ("[hf-sync] hub error: " ++ m)]
    | some (PyErr.otherExc m) =>
        attempt.1 ++ [Effect.printErr ("[hf-sync] unexpected error: " ++ m)]
  logged ++ [Effect.sleep (max 30 args.interval_seconds)]

/-- Outcome of `main` in hf_sync_loop.py: a normal return with an exit
code, an uncaught Python exception escaping `main`, or entry into the
infinite loop. -/
inductive SyncOutcome where
  | exit (code : Int)
  | uncaught (e : PyErr)
  | loops
deriving DecidableEq, Repr

/-- `main` of hf_sync_loop.py after argument parsing: check
`os.path.isdir(args.local_dir)` (stderr message and exit code 2 on
failure), select patterns, construct the `HfApi` client, then either run
`sync_once` once (`--once`: the outer `try` catches only
`KeyboardInterrupt`, so a `PyErr` escaping `sync_once` escapes `main`) or
enter the loop. In loop mode the trace shown is the first iteration;
every later iteration is `syncLoopIter` again. -/
def syncMain (env : Env) (args : SyncArgs) : List Effect × SyncOutcome :=
  if !env.isdir args.local_dir then
    ([Effect.printErr ("[hf-sync] local directory does not exist: "
        ++ args.local_dir)],
     SyncOutcome.exit 2)
  else
    let api := Effect.hfApiInit args.token
    if args.once then
      let attempt := sync_once env args.repo_id args.repo_type
        (parse_bool args.privateArg) args.local_dir
        (syncAllowPatterns args) (syncIgnorePatterns args)
      match attempt.2 with
      | none => (api :: attempt.1, SyncOutcome.exit 0)
      | some e => (api :: attempt.1, SyncOutcome.uncaught e)
    else
      (api :: syncLoopIter env args, SyncOutcome.loops)

/-- Parsed CLI arguments of hf_restore.py. -/
structure RestoreArgs where
  repo_id : String
  repo_type : String
  local_dir : String
  allow_pattern : List String
  token : Option String
  skip_if_local : Bool

/-- `has_local_checkpoints` of hf_restore.py:
`glob.glob(os.path.join(local_dir, "base_checkpoints", "*", "model_*.pt"))`
is non-empty (`recursive` is left at its default `False`). -/
def has_local_checkpoints (env : Env) (local_dir : String) : Bool :=
  env.glob
    (osPathJoin (osPathJoin (osPathJoin local_dir "base_checkpoints") "*")
      "model_*.pt")
    false

/-- The allow-pattern selection of `main` in hf_restore.py. -/
def restoreAllowPatterns (args : RestoreArgs) : List String :=
  if args.allow_pattern.isEmpty then HfRestore.DEFAULT_ALLOW_PATTERNS
  else args.allow_pattern

/-- `main` of hf_restore.py after argument parsing: `os.makedirs` with
`exist_ok=True`, optional skip when `--skip-if-local` is given and local
base checkpoints exist, otherwise one `snapshot_download` call whose
`HfHubHTTPError` or other `Exception` is caught and logged to stderr.
Returns the effect trace and the exit code. -/
def restoreMain (env : Env) (args : RestoreArgs) : List Effect × Int :=
  let made := Effect.makedirs args.local_dir true
  if args.skip_if_local && has_local_checkpoints env args.local_dir then
    ([made,
      Effect.printOut
        "[hf-restore] local base checkpoints already exist, skipping restore"],
     0)
  else
    let allow := restoreAllowPatterns args
    let call := Effect.snapshotDownload args.repo_id args.repo_type args.token
      args.local_dir allow
    let pre := [made,
      Effect.printOut ("[hf-restore] restoring from " ++ args.repo_type ++ ":"
        ++ args.repo_id ++ " -> " ++ args.local_dir),
      call]
    match env.snapshotErr with
    | none => (pre ++ [Effect.printOut "[hf-restore] restore complete"], 0)
    | some (PyErr.hfHubHTTPError m) =>
        (pre ++ [Effect.printErr ("[hf-restore] hub error (continuing): " ++ m)], 0)
    | some (PyErr.otherExc m) =>
        (pre ++ [Effect.printErr
          ("[hf-restore] unexpected restore error (continuing): " ++ m)], 0)

/-- Tests whether an effect is an `upload_folder` call. -/
def Effect.isUpload : Effect → Bool
  | Effect.uploadFolder _ _ _ _ _ _ => true
  | _ => false

/-- Tests whether an effect is a `snapshot_download` call. -/
def Effect.isSnapshot : Effect → Bool
  | Effect.snapshotDownload _ _ _ _ _ => true
  | _ => false

/-- Tests whether an effect constructs the API client or contacts the
remote service (`HfApi`, `create_repo`, `upload_folder`,
`snapshot_download`). -/
def Effect.isRemote : Effect → Bool
  | Effect.hfApiInit _ => true
  | Effect.createRepo _ _ _ _ => true
  | Effect.uploadFolder _ _ _ _ _ _ => true
  | Effect.snapshotDownload _ _ _ _ _ => true
  | _ => false

/-- An environment where every glob query succeeds and no SDK call raises. -/
def envAll : Env :=
  Env.mk (fun _ _ => true) (fun _ => true) none none none "2026-01-01 00:00:00Z"

/-- An environment where every glob query is empty and no SDK call raises. -/
def envNone : Env :=
  Env.mk (fun _ _ => false) (fun _ => true) none none none "2026-01-01 00:00:00Z"

/-- An environment where `upload_folder` raises a generic `Exception`. -/
def envBoom : Env :=
  Env.mk (fun _ _ => true) (fun _ => true) none (some (PyErr.otherExc "boom"))
    none "2026-01-01 00:00:00Z"

/-- An environment where `create_repo` raises an `HfHubHTTPError`. -/
def envHub : Env :=
  Env.mk (fun _ _ => true) (fun _ => true) (some (PyErr.hfHubHTTPError "404"))
    none none "2026-01-01 00:00:00Z"

/-- An environment where `os.path.isdir` is false for every path. -/
def envNoDir : Env :=
  Env.mk (fun _ _ => true) (fun _ => false) none none none "2026-01-01 00:00:00Z"

/-- Sync CLI arguments with `--once` and every default. -/
def argsSyncOnce : SyncArgs :=
  SyncArgs.mk "user/repo" "model" "true" "/data/nanochat" 1200 true [] [] none

/-- Sync CLI arguments in loop mode with `--interval-seconds 45`. -/
def argsSyncLoop : SyncArgs :=
  SyncArgs.mk "user/repo" "model" "true" "/data/nanochat" 45 false [] [] none

/-- Sync CLI arguments with the unrecognized value `--private on`. -/
def argsPrivateOn : SyncArgs :=
  SyncArgs.mk "user/repo" "model" "on" "/data/nanochat" 1200 true [] [] none

/-- Restore CLI arguments without `--skip-if-local`. -/
def argsRestore : RestoreArgs :=
  RestoreArgs.mk "user/repo" "model" "/data/nanochat" [] none false

lemma restoreMain_exit_zero (env : Env) (args : RestoreArgs) :
    (restoreMain env args).2 = 0 := by
  unfold restoreMain
  cases h : args.skip_if_local && has_local_checkpoints env args.local_dir
  · cases he : env.snapshotErr with
    | none => simp [h, he]
    | some e => cases e <;> simp [h, he]
  · simp [h]

lemma syncLoopIter_getLast (env : Env) (args : SyncArgs) :
    (syncLoopIter env args).getLast? =
      some (Effect.sleep (max 30 args.interval_seconds)) := by
  unfold syncLoopIter
  exact List.getLast?_concat _

/-- C1: a sync attempt (`sync_once`) calls `upload_folder` if and only if
some allow pattern glob-matches some path under the local directory, as
computed by `any_matches` over `os.path.join(local_dir, pattern)` with
recursive matching; when no pattern matches the attempt performs no
upload. (Stated for attempts where `create_repo` does not raise, the case
the claim describes; error propagation is the subject of C2.) -/
theorem claim_C1 (env : Env) (repo_id repo_type : String) (privateFlag : Bool)
    (local_dir : String) (allow ignore : List String)
    (h : env.createRepoErr = none) :
    ((sync_once env repo_id repo_type privateFlag local_dir allow
        ignore).1.any Effect.isUpload = true)
      ↔ any_matches env local_dir allow = true := by
  unfold sync_once
  rw [h]
  cases hm : any_matches env local_dir allow
  · simp [hm, Effect.isUpload]
  · cases hu : env.uploadErr <;> simp [hm, hu, Effect.isUpload]

/-- Witness for C1 at a concrete environment with every glob matching. -/
theorem claim_C1_witness :
    envAll.createRepoErr = none ∧
    (((sync_once envAll "user/repo" "model" true "/data/nanochat"
        ["base_checkpoints/**"] []).1.any Effect.isUpload = true)
      ↔ any_matches envAll "/data/nanochat" ["base_checkpoints/**"] = true) :=
  ⟨rfl, claim_C1 envAll "user/repo" "model" true "/data/nanochat"
    ["base_checkpoints/**"] [] rfl⟩

/-- C2 as stated is false in `--once` mode: with `--once`, an `Exception`
raised by `upload_folder` during the sync attempt is not caught (the
try/except around the attempt exists only inside the `while` loop; the
outer `try` catches only `KeyboardInterrupt`), so `main` terminates
abnormally with the uncaught exception instead of returning. -/
theorem claim_C2_counterexample :
    (syncMain envBoom argsSyncOnce).2 =
      SyncOutcome.uncaught (PyErr.otherExc "boom") := by
  decide

/-- C2 amended: in loop mode every error raised during a sync attempt is
caught and logged to stderr and the iteration proceeds to its sleep (the
iteration function is total and always ends with the sleep effect); in
`--once` mode such an error propagates out of `main` uncaught. -/
theorem claim_C2 (env : Env) (args : SyncArgs) :
    (syncLoopIter env args).getLast? =
        some (Effect.sleep (max 30 args.interval_seconds)) ∧
    (∀ m, env.createRepoErr = some (PyErr.hfHubHTTPError m) →
      Effect.printErr ("[hf-sync] hub error: " ++ m) ∈ syncLoopIter env args) := by
  refine ⟨syncLoopIter_getLast env args, ?_⟩
  intro m hm
  unfold syncLoopIter sync_once
  rw [hm]
  simp

/-- Witness for C2 at a concrete environment where `create_repo` raises an
`HfHubHTTPError`. -/
theorem claim_C2_witness :
    envHub.createRepoErr = some (PyErr.hfHubHTTPError "404") ∧
    (syncLoopIter envHub argsSyncLoop).getLast? =
      some (Effect.sleep (max 30 argsSyncLoop.interval_seconds)) ∧
    Effect.printErr ("[hf-sync] hub error: " ++ "404")
      ∈ syncLoopIter envHub argsSyncLoop :=
  ⟨rfl, (claim_C2 envHub argsSyncLoop).1,
    (claim_C2 envHub argsSyncLoop).2 "404" rfl⟩

/-- C3: for every invocation of the restore utility that passes argument
parsing — whatever the skip decision and whatever exception
(`HfHubHTTPError` or any other `Exception`) `snapshot_download` raises —
`main` returns exit code 0. -/
theorem claim_C3 (env : Env) (args : RestoreArgs) :
    (restoreMain env args).2 = 0 :=
  restoreMain_exit_zero env args

/-- C4: each loop iteration ends by sleeping `max 30 interval_seconds`
seconds, which is at least 30 for every configured value (including 0 or
negative) and equals the configured value exactly when it is at least 30. -/
theorem claim_C4 (env : Env) (args : SyncArgs) :
    (syncLoopIter env args).getLast? =
        some (Effect.sleep (max 30 args.interval_seconds)) ∧
    30 ≤ max 30 args.interval_seconds ∧
    (30 ≤ args.interval_seconds →
      max 30 args.interval_seconds = args.interval_seconds) :=
  ⟨syncLoopIter_getLast env args, le_max_left 30 _, fun h => max_eq_right h⟩

/-- Witness for C4 at `--interval-seconds 45`. -/
theorem claim_C4_witness :
    (syncLoopIter envAll argsSyncLoop).getLast? =
      some (Effect.sleep (max 30 argsSyncLoop.interval_seconds)) ∧
    (30 : Int) ≤ max 30 argsSyncLoop.interval_seconds ∧
    max (30 : Int) argsSyncLoop.interval_seconds =
      argsSyncLoop.interval_seconds :=
  ⟨(claim_C4 envAll argsSyncLoop).1, (claim_C4 envAll argsSyncLoop).2.1,
   (claim_C4 envAll argsSyncLoop).2.2 (by decide)⟩

/-- C5: the restore utility skips `snapshot_download` exactly when
`--skip-if-local` is given and `has_local_checkpoints` holds, and
`has_local_checkpoints` is decided solely by the single glob query
`os.path.join(local_dir, "base_checkpoints", "*", "model_*.pt")` with
non-recursive matching — no other artifact kind participates. -/
theorem claim_C5 (env : Env) (args : RestoreArgs) :
    ((restoreMain env args).1.any Effect.isSnapshot = false ↔
      (args.skip_if_local && has_local_checkpoints env args.local_dir) = true) ∧
    has_local_checkpoints env args.local_dir =
      env.glob
        (osPathJoin (osPathJoin (osPathJoin args.local_dir "base_checkpoints")
          "*") "model_*.pt")
        false := by
  refine ⟨?_, rfl⟩
  unfold restoreMain
  cases h : args.skip_if_local && has_local_checkpoints env args.local_dir
  · cases he : env.snapshotErr with
    | none => simp [h, he, Effect.isSnapshot]
    | some e => cases e <;> simp [h, he, Effect.isSnapshot]
  · simp [h, Effect.isSnapshot]

/-- C6: the pattern lists handed to the external library calls are exactly
the CLI-supplied ones when any were given and the fixed defaults
otherwise: the `upload_folder` effect carries the selected allow/ignore
lists, the `snapshot_download` effect carries the selected allow list, and
each selection is the CLI list when non-empty (entire replacement, no
merging) and the module default when empty. -/
theorem claim_C6 (env : Env) (sargs : SyncArgs) (rargs : RestoreArgs)
    (h1 : env.createRepoErr = none)
    (h2 : any_matches env sargs.local_dir (syncAllowPatterns sargs) = true)
    (h3 : (rargs.skip_if_local &&
      has_local_checkpoints env rargs.local_dir) = false) :
    Effect.uploadFolder sargs.repo_id sargs.repo_type sargs.local_dir
        (syncAllowPatterns sargs) (syncIgnorePatterns sargs)
        ("checkpoint sync " ++ env.now)
      ∈ (sync_once env sargs.repo_id sargs.repo_type
          (parse_bool sargs.privateArg) sargs.local_dir
          (syncAllowPatterns sargs) (syncIgnorePatterns sargs)).1 ∧
    Effect.snapshotDownload rargs.repo_id rargs.repo_type rargs.token
        rargs.local_dir (restoreAllowPatterns rargs)
      ∈ (restoreMain env rargs).1 ∧
    syncAllowPatterns sargs =
      (if sargs.allow_pattern = [] then HfSyncLoop.DEFAULT_ALLOW_PATTERNS
       else sargs.allow_pattern) ∧
    syncIgnorePatterns sargs =
      (if sargs.ignore_pattern = [] then ["**/*.tmp", "**/*.lock"]
       else sargs.ignore_pattern) ∧
    restoreAllowPatterns rargs =
      (if rargs.allow_pattern = [] then HfRestore.DEFAULT_ALLOW_PATTERNS
       else rargs.allow_pattern) := by
  refine ⟨?_, ?_, ?_, ?_, ?_⟩
  · unfold sync_once
    rw [h1]
    cases hu : env.uploadErr <;> simp [h2, hu]
  · unfold restoreMain
    rw [h3]
    cases he : env.snapshotErr with
    | none => simp
    | some e => cases e <;> simp
  · cases ha : sargs.allow_pattern <;> simp [syncAllowPatterns, ha]
  · cases hi : sargs.ignore_pattern <;>
      simp [syncIgnorePatterns, HfSyncLoop.DEFAULT_IGNORE_PATTERNS, hi]
  · cases hr : rargs.allow_pattern <;> simp [restoreAllowPatterns, hr]

/-- Witness for C6 at a concrete matching environment and default CLI
lists. -/
theorem claim_C6_witness :
    envAll.createRepoErr = none ∧
    any_matches envAll argsSyncOnce.local_dir
      (syncAllowPatterns argsSyncOnce) = true ∧
    (argsRestore.skip_if_local &&
      has_local_checkpoints envAll argsRestore.local_dir) = false ∧
    Effect.uploadFolder argsSyncOnce.repo_id argsSyncOnce.repo_type
        argsSyncOnce.local_dir (syncAllowPatterns argsSyncOnce)
        (syncIgnorePatterns argsSyncOnce) ("checkpoint sync " ++ envAll.now)
      ∈ (sync_once envAll argsSyncOnce.repo_id argsSyncOnce.repo_type
          (parse_bool argsSyncOnce.privateArg) argsSyncOnce.local_dir
          (syncAllowPatterns argsSyncOnce) (syncIgnorePatterns argsSyncOnce)).1 :=
  ⟨rfl, by decide, by decide,
    (claim_C6 envAll argsSyncOnce argsRestore rfl (by decide) (by decide)).1⟩

/-- C7: the two scripts declare the same static default allow-pattern
list, element for element and in the same order, with exactly the seven
listed entries. -/
theorem claim_C7 :
    HfRestore.DEFAULT_ALLOW_PATTERNS = HfSyncLoop.DEFAULT_ALLOW_PATTERNS ∧
    HfSyncLoop.DEFAULT_ALLOW_PATTERNS =
      ["base_checkpoints/**", "chatsft_checkpoints/**",
       "chatrl_checkpoints/**", "tokenizer/**", "report/**", "report.md",
       "identity_conversations.jsonl"] :=
  ⟨rfl, rfl⟩

/-- C8: `parse_bool v` is true exactly when the lowercased value is one of
"1", "true", "yes", "y"; the unrecognized values "on" and "private"
therefore parse as false, and running the sync utility with
`--private on` emits a `create_repo` call with `private=False`
(a public repository). -/
theorem claim_C8 :
    (∀ v : String, parse_bool v = true ↔
      pyLower v ∈ (["1", "true", "yes", "y"] : List String)) ∧
    parse_bool "on" = false ∧
    parse_bool "private" = false ∧
    Effect.createRepo "user/repo" "model" false true
      ∈ (syncMain envAll argsPrivateOn).1 := by
  refine ⟨fun v => ?_, by decide, by decide, by decide⟩
  simp [parse_bool, List.elem_iff, List.contains]

/-- C9: every sync attempt issues `create_repo(repo_id, repo_type,
private, exist_ok=True)` as its very first effect, before the local match
check; when `create_repo` succeeds and no allow pattern matches, the
attempt consists of exactly that call followed by the skip message, so the
remote repository is still contacted on every iteration. -/
theorem claim_C9 (env : Env) (repo_id repo_type : String)
    (privateFlag : Bool) (local_dir : String) (allow ignore : List String) :
    (sync_once env repo_id repo_type privateFlag local_dir allow
        ignore).1.head?
      = some (Effect.createRepo repo_id repo_type privateFlag true) ∧
    (env.createRepoErr = none →
      any_matches env local_dir allow = false →
      (sync_once env repo_id repo_type privateFlag local_dir allow ignore).1 =
        [Effect.createRepo repo_id repo_type privateFlag true,
         Effect.printOut "[hf-sync] no matching files yet, skipping upload"]) := by
  constructor
  · unfold sync_once
    cases hc : env.createRepoErr with
    | none =>
      cases hm : any_matches env local_dir allow
      · simp [hm]
      · cases hu : env.uploadErr <;> simp [hm, hu]
    | some e => simp
  · intro h1 h2
    unfold sync_once
    rw [h1]
    simp [h2]

/-- Witness for C9 at a concrete environment with no matching glob. -/
theorem claim_C9_witness :
    (sync_once envNone "user/repo" "model" true "/data/nanochat"
        HfSyncLoop.DEFAULT_ALLOW_PATTERNS
        HfSyncLoop.DEFAULT_IGNORE_PATTERNS).1.head?
      = some (Effect.createRepo "user/repo" "model" true true) ∧
    envNone.createRepoErr = none ∧
    any_matches envNone "/data/nanochat"
      HfSyncLoop.DEFAULT_ALLOW_PATTERNS = false ∧
    (sync_once envNone "user/repo" "model" true "/data/nanochat"
        HfSyncLoop.DEFAULT_ALLOW_PATTERNS
        HfSyncLoop.DEFAULT_IGNORE_PATTERNS).1 =
      [Effect.createRepo "user/repo" "model" true true,
       Effect.printOut "[hf-sync] no matching files yet, skipping upload"] :=
  ⟨(claim_C9 envNone "user/repo" "model" true "/data/nanochat"
      HfSyncLoop.DEFAULT_ALLOW_PATTERNS HfSyncLoop.DEFAULT_IGNORE_PATTERNS).1,
   rfl, by decide,
   (claim_C9 envNone "user/repo" "model" true "/data/nanochat"
      HfSyncLoop.DEFAULT_ALLOW_PATTERNS HfSyncLoop.DEFAULT_IGNORE_PATTERNS).2
     rfl (by decide)⟩

/-- C10: when `--local-dir` does not name an existing directory, the sync
utility prints the error to stderr and returns exit code 2, performing no
API-client construction and no remote operation; the restore utility
instead begins with `os.makedirs(local_dir, exist_ok=True)` and proceeds. -/
theorem claim_C10 (env : Env) (sargs : SyncArgs) (rargs : RestoreArgs)
    (h : env.isdir sargs.local_dir = false) :
    syncMain env sargs =
      ([Effect.printErr ("[hf-sync] local directory does not exist: "
          ++ sargs.local_dir)], SyncOutcome.exit 2) ∧
    (syncMain env sargs).1.any Effect.isRemote = false ∧
    (restoreMain env rargs).1.head?
      = some (Effect.makedirs rargs.local_dir true) := by
  have hmain : syncMain env sargs =
      ([Effect.printErr ("[hf-sync] local directory does not exist: "
          ++ sargs.local_dir)], SyncOutcome.exit 2) := by
    unfold syncMain
    rw [h]
    simp
  refine ⟨hmain, ?_, ?_⟩
  · rw [hmain]
    simp [Effect.isRemote]
  · unfold restoreMain
    cases h2 : rargs.skip_if_local && has_local_checkpoints env rargs.local_dir
    · cases he : env.snapshotErr with
      | none => simp [h2, he]
      | some e => cases e <;> simp [h2, he]
    · simp [h2]

/-- Witness for C10 at a concrete environment where `isdir` is false. -/
theorem claim_C10_witness :
    envNoDir.isdir argsSyncOnce.local_dir = false ∧
    syncMain envNoDir argsSyncOnce =
      ([Effect.printErr ("[hf-sync] local directory does not exist: "
          ++ argsSyncOnce.local_dir)], SyncOutcome.exit 2) :=
  ⟨rfl, (claim_C10 envNoDir argsSyncOnce argsRestore rfl).1⟩
